import Mathlib

/-!
Shallow embedding of the `azure-typescript-upload-file-storage-blob` sample:
a Fastify API that mints user-delegation SAS tokens for Azure Blob Storage
(`api/src/routes/sas.ts`, `api/src/routes/list.ts`, `api/src/routes/status.ts`,
`api/src/lib/azure-storage.ts`, `api/src/lib/verify-permissions.ts`) and a React
client (`app/src/App.tsx`) that consumes them.

JavaScript machine integers appearing here (millisecond epoch timestamps,
minute counts) are modelled as `Int`; the values involved are far below 2^53,
where JS number arithmetic is exact.  A JS `Date` whose timestamp is `NaN`
(an "Invalid Date") is modelled as `none : Option Int`.  Calls into the Azure
SDK / storage service are external effects; their success or failure is passed
in as an explicit parameter and the handler embeddings record whether the
store call was reached.
-/

/-! ## JavaScript primitives used by the handlers -/

/-- One decimal digit, as in JS `parseInt` with radix 10. -/
def isDecDigit (c : Char) : Bool :=
  '0' ≤ c && c ≤ '9'

/-- JS `StrWhiteSpace` characters stripped by `parseInt` (ASCII subset;
the handlers only ever receive URL-decoded query strings). -/
def isJsSpace (c : Char) : Bool :=
  c = ' ' || c = '\t' || c = '\n' || c = '\r'

/-- Accumulate a decimal digit run into a natural number. -/
def decValue (ds : List Char) : Nat :=
  ds.foldl (fun acc c => acc * 10 + (c.toNat - '0'.toNat)) 0

/-- JS `parseInt(s, 10)`: strip leading whitespace, optional sign, then the
longest prefix of decimal digits; `none` models the `NaN` result when no
digit is found. -/
def parseIntJS (s : String) : Option Int :=
  let l := s.data.dropWhile isJsSpace
  let signAndRest : Int × List Char :=
    match l with
    | '-' :: t => (-1, t)
    | '+' :: t => (1, t)
    | _ => (1, l)
  let ds := signAndRest.2.takeWhile isDecDigit
  if ds.isEmpty then none
  else some (signAndRest.1 * (decValue ds : Int))

/-- JS `String.prototype.toLowerCase` restricted to ASCII, which is all the
handlers compare (`Char.toLower` lowers exactly the ASCII uppercase range). -/
def jsToLower (s : String) : String :=
  String.mk (s.data.map Char.toLower)

/-- JS `String.prototype.includes(pat)` on the underlying character lists. -/
def containsSub (pat : List Char) : List Char → Bool
  | [] => pat.isEmpty
  | c :: rest => pat.isPrefixOf (c :: rest) || containsSub pat rest

/-- JS `a || b` on an optional string environment variable / config value:
the default is taken when the value is absent or empty (falsy). -/
def jsOrDefault (o : Option String) (d : String) : String :=
  match o with
  | none => d
  | some s => if s = "" then d else s

/-! ## `@azure/storage-blob` surface used by the routes

`BlobSASPermissions.parse` from the SDK: one boolean per permission letter,
throwing a `RangeError` on any unrecognised character. -/

structure BlobSASPermissions where
  read : Bool := false
  add : Bool := false
  create : Bool := false
  write : Bool := false
  delete : Bool := false
  deleteVersion : Bool := false
  tag : Bool := false
  move : Bool := false
  execute : Bool := false
  setImmutabilityPolicy : Bool := false
  permanentDelete : Bool := false
  deriving Repr, DecidableEq

/-- `BlobSASPermissions.parse(permissions)`: fold over the characters,
setting the matching flag, and throw (`Except.error`) on anything else. -/
def BlobSASPermissions.parse (s : String) : Except String BlobSASPermissions :=
  s.data.foldlM (fun p c =>
    match c with
    | 'r' => Except.ok { p with read := true }
    | 'a' => Except.ok { p with add := true }
    | 'c' => Except.ok { p with create := true }
    | 'w' => Except.ok { p with write := true }
    | 'd' => Except.ok { p with delete := true }
    | 'x' => Except.ok { p with deleteVersion := true }
    | 't' => Except.ok { p with tag := true }
    | 'm' => Except.ok { p with move := true }
    | 'e' => Except.ok { p with execute := true }
    | 'i' => Except.ok { p with setImmutabilityPolicy := true }
    | 'y' => Except.ok { p with permanentDelete := true }
    | _ => Except.error ("Invalid permission: " ++ String.singleton c))
    {}

/-- The permission set carrying exactly the `write` flag. -/
def writeOnlyPerms : BlobSASPermissions := { write := true }

/-- The permission set carrying exactly the `read` flag. -/
def readOnlyPerms : BlobSASPermissions := { read := true }

/-- A permission set is within a policy when every flag it sets is also set
by the policy. -/
def permsWithin (p policy : BlobSASPermissions) : Bool :=
  (!p.read || policy.read) && (!p.add || policy.add) &&
  (!p.create || policy.create) && (!p.write || policy.write) &&
  (!p.delete || policy.delete) && (!p.deleteVersion || policy.deleteVersion) &&
  (!p.tag || policy.tag) && (!p.move || policy.move) &&
  (!p.execute || policy.execute) &&
  (!p.setImmutabilityPolicy || policy.setImmutabilityPolicy) &&
  (!p.permanentDelete || policy.permanentDelete)

/-- The user delegation key obtained from
`blobServiceClient.getUserDelegationKey(startsOn, expiresOn)`: modelled by the
validity window it was scoped to (the key bytes themselves are opaque). -/
structure DelegationKey where
  keyStartsOn : Int
  keyExpiresOn : Option Int
  deriving Repr, DecidableEq

/-- The signed query parameters produced by
`generateBlobSASQueryParameters({containerName, blobName, permissions,
startsOn, expiresOn}, userDelegationKey, accountName)`: the signature binds
all the listed fields, so the token is modelled by those fields plus the key
that signed it. -/
structure SasToken where
  containerName : String
  blobName : String
  permissions : BlobSASPermissions
  startsOn : Int
  expiresOn : Option Int
  signedWith : DelegationKey
  deriving Repr, DecidableEq

/-- `containerClient.url` for an account and container. -/
def containerUrl (accountName container : String) : String :=
  "https://" ++ accountName ++ ".blob.core.windows.net/" ++ container

/-- `blobClient.url` for an account, container and blob name. -/
def blobUrl (accountName container file : String) : String :=
  containerUrl accountName container ++ "/" ++ file

/-- The value sent back on the happy path: `{ url: blobClient.url + "?" + sasToken }`,
kept structured so the embedded query parameters remain inspectable. -/
structure SasUrl where
  base : String
  token : SasToken
  deriving Repr, DecidableEq

/-! ## `GET /api/sas` — `getSasToken` in `api/src/routes/sas.ts` -/

/-- The `Querystring` of the SAS route; `none` is an absent query parameter
(destructuring defaults in the handler fire only on `undefined`). -/
structure SasQuery where
  container : Option String := none
  file : Option String := none
  permission : Option String := none
  timerange : Option String := none
  deriving Repr, DecidableEq

/-- The three reply shapes of the SAS route. -/
inductive SasResponse where
  | badRequest (error : String)
  | serverError (error : String)
  | ok (url : SasUrl)
  deriving Repr, DecidableEq

/-- HTTP status code attached to each reply by the handler
(`reply.status(400)`, `reply.status(500)`, default 200). -/
def SasResponse.status : SasResponse → Nat
  | .badRequest _ => 400
  | .serverError _ => 500
  | .ok _ => 200

/-- A client-error (4xx) reply. -/
def SasResponse.isClientError : SasResponse → Bool
  | .badRequest _ => true
  | _ => false

/-- The handler's observable outcome: the reply, plus whether the
storage-service call `getUserDelegationKey` was reached. -/
structure SasTrace where
  response : SasResponse
  delegationKeyRequested : Bool
  deriving Repr, DecidableEq

/-- `getSasToken(request, reply)` from `api/src/routes/sas.ts`.

* `delegationOk` stands for the outcome of the external
  `getUserDelegationKey` store call (a rejection lands in the handler's
  `catch`, which replies 500 `"Failed to generate SAS token"`);
* `accountEnv` is `process.env.AZURE_STORAGE_ACCOUNT_NAME`;
* `now` is the millisecond timestamp of `new Date()` taken for `startsOn`.

Control flow follows the source: destructure the query with defaults
`container = 'upload'`, `permission = 'w'`, `timerange = '10'`; `!file`
(absent or empty) → 400; `!accountName` → 500; otherwise compute
`startsOn = now`, `expiresOn = startsOn + parseInt(timerange, 10) * 60 * 1000`,
request the delegation key, then `BlobSASPermissions.parse(permission)`
(a `RangeError` there is caught → 500) and assemble the signed URL. -/
def getSasToken (delegationOk : Bool) (accountEnv : Option String)
    (now : Int) (q : SasQuery) : SasTrace :=
  let container := q.container.getD "upload"
  let permission := q.permission.getD "w"
  let timerange := q.timerange.getD "10"
  if q.file.getD "" = "" then
    ⟨.badRequest "Missing required parameter: file", false⟩
  else
    let file := q.file.getD ""
    if accountEnv.getD "" = "" then
      ⟨.serverError "Storage configuration missing", false⟩
    else
      let accountName := accountEnv.getD ""
      let startsOn : Int := now
      let timerangeMinutes := parseIntJS timerange
      let expiresOn := timerangeMinutes.map (fun n => startsOn + n * 60 * 1000)
      if !delegationOk then
        ⟨.serverError "Failed to generate SAS token", true⟩
      else
        let userDelegationKey : DelegationKey := ⟨startsOn, expiresOn⟩
        match BlobSASPermissions.parse permission with
        | .error _ => ⟨.serverError "Failed to generate SAS token", true⟩
        | .ok perms =>
          let token : SasToken :=
            ⟨container, file, perms, startsOn, expiresOn, userDelegationKey⟩
          ⟨.ok ⟨blobUrl accountName container file, token⟩, true⟩

example : (getSasToken true (some "acct") 0 { file := some "a.txt" }).response =
    .ok ⟨"https://acct.blob.core.windows.net/upload/a.txt",
      ⟨"upload", "a.txt", writeOnlyPerms, 0, some 600000, ⟨0, some 600000⟩⟩⟩ := by
  decide

example : getSasToken true (some "acct") 0 { container := some "c" } =
    ⟨.badRequest "Missing required parameter: file", false⟩ := by
  decide

/-! ## `GET /api/list` — the two `listFiles` route variants

The repository ships two implementations of the list route.  One
(`packages/api/src/routes/list.ts`) pushes `containerClient.url + "/" + blob.name`
for each blob — a bare, unsigned blob URL.  The other (the variant with the
`LIST_SAS_TOKEN_*` constants) obtains one user delegation key and then calls
`generateBlobSASQueryParameters` once per blob with permission `'r'` and a
60-minute validity window, pushing `blobClient.url + "?" + sasToken`. -/

/-- Reply shapes of the bare-URL list variant (entries are plain strings). -/
inductive ListBareResponse where
  | serverError (error : String)
  | ok (list : List String)
  deriving Repr, DecidableEq

/-- `listFiles` from `packages/api/src/routes/list.ts`.  `blobs` is the
sequence of blob names the flat-listing pages yield; `listOk` is the outcome
of the external enumeration (a rejection lands in the `catch` → 500). -/
def listFilesBare (listOk : Bool) (accountEnv : Option String)
    (containerQ : Option String) (blobs : List String) : ListBareResponse :=
  let container := containerQ.getD "upload"
  if accountEnv.getD "" = "" then
    .serverError "Storage configuration missing"
  else
    let accountName := accountEnv.getD ""
    if !listOk then
      .serverError "Failed to list files"
    else
      .ok (blobs.map (fun name => containerUrl accountName container ++ "/" ++ name))

/-- Reply shapes of the SAS-minting list variant; entries keep the structured
token so its permission set and window stay inspectable. -/
inductive ListSasResponse where
  | serverError (error : String)
  | ok (list : List SasUrl)
  deriving Repr, DecidableEq

/-- `LIST_SAS_TOKEN_EXPIRATION_MINUTES` from the SAS-minting list variant. -/
def LIST_SAS_TOKEN_EXPIRATION_MINUTES : Int := 60

/-- `LIST_SAS_TOKEN_PERMISSION` from the SAS-minting list variant. -/
def LIST_SAS_TOKEN_PERMISSION : String := "r"

/-- `listFiles` from the SAS-minting variant: one delegation key scoped to
`[now, now + 60 min]`, then a fresh read token generated per enumerated blob. -/
def listFilesSas (storeOk : Bool) (accountEnv : Option String)
    (containerQ : Option String) (now : Int) (blobs : List String) : ListSasResponse :=
  let container := containerQ.getD "upload"
  if accountEnv.getD "" = "" then
    .serverError "Storage configuration missing"
  else
    let accountName := accountEnv.getD ""
    let startsOn : Int := now
    let expiresOn : Int := startsOn + LIST_SAS_TOKEN_EXPIRATION_MINUTES * 60 * 1000
    if !storeOk then
      .serverError "Failed to list files"
    else
      let userDelegationKey : DelegationKey := ⟨startsOn, some expiresOn⟩
      match BlobSASPermissions.parse LIST_SAS_TOKEN_PERMISSION with
      | .error _ => .serverError "Failed to list files"
      | .ok perms =>
        .ok (blobs.map (fun name =>
          ⟨blobUrl accountName container name,
            ⟨container, name, perms, startsOn, some expiresOn, userDelegationKey⟩⟩))

/-! ## `GET /api/status` — `getStatus` in `api/src/routes/status.ts` -/

/-- The body assembled by `getStatus` (the `timestamp` ISO string is passed
through as an opaque input). -/
structure StatusResponse where
  status : String
  timestamp : String
  environment : String
  storageAccount : String
  frontendUrl : String
  reqMethod : String
  reqUrl : String
  reqHeaders : List (String × String)
  deriving Repr, DecidableEq

/-- The filter applied to `request.headers`:
`!key.toLowerCase().includes('authorization')`. -/
def keepsHeader (kv : String × String) : Bool :=
  !containsSub "authorization".data (jsToLower kv.1).data

/-- `getStatus(request, reply)`: echoes environment configuration and the
request's method, URL and headers, dropping every header whose lower-cased
name contains `"authorization"`. -/
def getStatus (nodeEnv storageAcct frontend : Option String)
    (timestamp method url : String)
    (headers : List (String × String)) : StatusResponse :=
  { status := "ok"
    timestamp := timestamp
    environment := jsOrDefault nodeEnv "development"
    storageAccount := jsOrDefault storageAcct "not configured"
    frontendUrl := jsOrDefault frontend "not configured"
    reqMethod := method
    reqUrl := url
    reqHeaders := headers.filter keepsHeader }

/-! ## Browser client — `App.tsx`

The component state is the four `useState` hooks; the handlers are modelled
as state transformers, with the external effects (file conversion, the PUT to
the signed URL, the list fetch) passed in as explicit outcomes. -/

structure AppState where
  selectedFile : Option String := none
  sasTokenUrl : String := ""
  uploadStatus : String := ""
  list : List String := []
  deriving Repr, DecidableEq

/-- `handleFileSelection`: a null or empty `target.files` returns without
touching state; otherwise the first file is selected and, per the `// reset`
block, `sasTokenUrl` and `uploadStatus` are cleared. -/
def handleFileSelection (st : AppState) (files : Option (List String)) : AppState :=
  match files with
  | none => st
  | some [] => st
  | some (f :: _) =>
    { st with selectedFile := some f, sasTokenUrl := "", uploadStatus := "" }

/-- External outcomes consumed by `handleFileUpload`'s promise chain:
`fileBytes` is the `byteLength` of `convertFileToArrayBuffer`'s result
(`none` = `null`); `uploadOk` is whether `blockBlobClient.uploadData`
resolves; `listResponse` is the parsed body of the follow-up list fetch
(`none` = network/HTTP error).  The `ErrDetail` strings stand for the
`${message} ${stack}` text of the corresponding rejection. -/
structure UploadEnv where
  fileBytes : Option Nat := some 1
  uploadOk : Bool := true
  uploadErrDetail : String := ""
  listResponse : Option (List String) := some []
  listErrDetail : String := ""
  convertErrDetail : String := ""

/-- What `handleFileUpload` did to the outside world: whether a PUT was
issued, and to which URL. -/
structure UploadTrace where
  putAttempted : Bool
  putUrl : Option String
  deriving Repr, DecidableEq

/-- Prefix of the `catch` handler's status message in `handleFileUpload`. -/
def uploadFailText (detail : String) : String :=
  "Failed to finish upload with error : " ++ detail

/-- `handleFileUpload`: abort when `sasTokenUrl === ''`; otherwise convert the
file (a null/empty buffer throws `"Failed to convert file to ArrayBuffer"`),
PUT the bytes to `sasTokenUrl`, on success set the success status and refresh
the list; any rejection reaches the single `catch`, which only sets
`uploadStatus`. -/
def handleFileUpload (env : UploadEnv) (st : AppState) : AppState × UploadTrace :=
  if st.sasTokenUrl = "" then
    (st, ⟨false, none⟩)
  else
    match env.fileBytes with
    | none =>
      ({ st with uploadStatus :=
          uploadFailText ("Failed to convert file to ArrayBuffer " ++ env.convertErrDetail) },
        ⟨false, none⟩)
    | some n =>
      if n < 1 then
        ({ st with uploadStatus :=
            uploadFailText ("Failed to convert file to ArrayBuffer " ++ env.convertErrDetail) },
          ⟨false, none⟩)
      else if !env.uploadOk then
        ({ st with uploadStatus := uploadFailText env.uploadErrDetail },
          ⟨true, some st.sasTokenUrl⟩)
      else
        match env.listResponse with
        | some l =>
          ({ st with uploadStatus := "Successfully finished upload", list := l },
            ⟨true, some st.sasTokenUrl⟩)
        | none =>
          ({ st with uploadStatus := uploadFailText env.listErrDetail },
            ⟨true, some st.sasTokenUrl⟩)

/-! ## Credential provider — `getCredential` in `api/src/lib/azure-storage.ts`

`let _credential = null; if (!_credential) _credential = new ...; return
_credential` — the module-level cell is the state, and each `new` constructs a
fresh handle, numbered by a construction counter (both repository variants,
`DefaultAzureCredential` and `ChainedTokenCredential`, share this shape). -/

structure CredState where
  cached : Option Nat
  nextId : Nat
  deriving Repr, DecidableEq

/-- The module state at process start: `_credential = null`, nothing
constructed yet. -/
def initialCredState : CredState := ⟨none, 0⟩

/-- `getCredential()`: return the cached handle, constructing it first if the
cell is still null. -/
def getCredential : CredState → Nat × CredState
  | ⟨some c, n⟩ => (c, ⟨some c, n⟩)
  | ⟨none, n⟩ => (n, ⟨some n, n + 1⟩)

/-- Run `k` successive `getCredential()` calls, collecting the returned
handles. -/
def runCredCalls : Nat → CredState → List Nat × CredState
  | 0, s => ([], s)
  | Nat.succ k, s =>
    let r := getCredential s
    let rest := runCredCalls k r.2
    (r.1 :: rest.1, rest.2)

/-! ## Startup permission check — `verifyStoragePermissions` in
`api/src/lib/verify-permissions.ts`

Test 1's loop: `let retries = 3; while (retries > 0) { try { await
getProperties(); break } catch { retries--; if (retries > 0) await sleep(2000) } }`,
then `if (retries === 0) return { success: false, ... }`.
`outcome i` is whether the `i`-th `getProperties()` call (0-based) resolves;
the embedding returns the final value of `retries`, the number of
`getProperties()` calls made, and the list of sleep durations (ms). -/

structure AccessLoopRun where
  retriesLeft : Nat
  attempts : Nat
  sleepsMs : List Nat
  deriving Repr, DecidableEq

/-- One execution of the Test-1 `while` loop, structurally recursive on the
`retries` counter. -/
def accessLoop (outcome : Nat → Bool) (idx : Nat) : Nat → AccessLoopRun
  | 0 => ⟨0, 0, []⟩
  | Nat.succ r =>
    if outcome idx then ⟨Nat.succ r, 1, []⟩
    else if r = 0 then ⟨0, 1, []⟩
    else
      let rest := accessLoop outcome (idx + 1) r
      ⟨rest.retriesLeft, rest.attempts + 1, 2000 :: rest.sleepsMs⟩

/-- Result of the storage-account access stage of `verifyStoragePermissions`:
either the failure record returned when `retries === 0`, or control passes on
to Test 2. -/
inductive AccessCheckResult where
  | failure (message : String)
  | proceed
  deriving Repr, DecidableEq

/-- The access stage: run the retry loop and return the `success: false`
record when the counter is exhausted, otherwise fall through. -/
def verifyStorageAccess (outcome : Nat → Bool) : AccessCheckResult × AccessLoopRun :=
  let run := accessLoop outcome 0 3
  if run.retriesLeft = 0 then
    (.failure
      "Cannot access storage account. RBAC roles may need time to propagate (5-10 minutes).",
      run)
  else
    (.proceed, run)

example : parseIntJS "120" = some 120 := by decide
example : parseIntJS "-5" = some (-5) := by decide
example : parseIntJS "0" = some 0 := by decide
example : parseIntJS "abc" = none := by decide

/-! ## Theorems -/

/-- Inversion for the SAS route's happy path: an `ok` reply carries exactly
the permissions parsed from the caller's `permission` (default `'w'`), a
start time of `now`, and an expiry of `now + parseInt(timerange) * 60 * 1000`
(default `timerange = '10'`). -/
theorem getSasToken_ok_inv {dOk : Bool} {env : Option String} {now : Int}
    {q : SasQuery} {u : SasUrl}
    (h : (getSasToken dOk env now q).response = .ok u) :
    BlobSASPermissions.parse (q.permission.getD "w") = .ok u.token.permissions ∧
    u.token.startsOn = now ∧
    u.token.expiresOn =
      (parseIntJS (q.timerange.getD "10")).map (fun n => now + n * 60 * 1000) ∧
    u.token.containerName = q.container.getD "upload" ∧
    u.token.blobName = q.file.getD "" := by
  by_cases hf : q.file.getD "" = ""
  · simp [getSasToken, hf] at h
  · by_cases ha : env.getD "" = ""
    · simp [getSasToken, hf, ha] at h
    · cases dOk with
      | false => simp [getSasToken, hf, ha] at h
      | true =>
        cases hp : BlobSASPermissions.parse (q.permission.getD "w") with
        | error e => simp [getSasToken, hf, ha, hp] at h
        | ok perms =>
          simp [getSasToken, hf, ha, hp] at h
          subst h
          exact ⟨rfl, rfl, rfl, rfl, rfl⟩


/-- C3: when the `file` query parameter is absent, `getSasToken` replies
HTTP 400 with body `{"error": "Missing required parameter: file"}` and no
storage-service call (in particular no delegation-key request, hence also no
SAS generation) is attempted. -/
theorem getSasToken_missing_file (dOk : Bool) (env : Option String)
    (now : Int) (q : SasQuery) (hf : q.file = none) :
    getSasToken dOk env now q =
      ⟨.badRequest "Missing required parameter: file", false⟩ ∧
    (getSasToken dOk env now q).response.status = 400 := by
  have h : getSasToken dOk env now q =
      ⟨.badRequest "Missing required parameter: file", false⟩ := by
    simp [getSasToken, hf]
  exact ⟨h, by rw [h]; rfl⟩

/-- Witness for C3 at a concrete request carrying only `container=upload`. -/
theorem getSasToken_missing_file_witness :
    getSasToken true (some "acct") 0 { container := some "upload" } =
      ⟨.badRequest "Missing required parameter: file", false⟩ ∧
    (getSasToken true (some "acct") 0 { container := some "upload" }).response.status = 400 :=
  getSasToken_missing_file true (some "acct") 0 { container := some "upload" } rfl

/-- C1 counterexample: a single concrete request with `permission=rw` and
`timerange=120` is answered with a signed URL whose permission set contains
read *and* write — strictly wider than the upload route's write-only policy,
and satisfying the write-scoped upload purpose and the read-scoped display
purpose with one token — and whose duration is 120 minutes, above the
60-minute ceiling the claim says is enforced. -/
theorem getSasToken_no_clamp_counterexample :
    getSasToken true (some "acct") 0
      { file := some "photo.png", permission := some "rw", timerange := some "120" } =
      ⟨.ok ⟨"https://acct.blob.core.windows.net/upload/photo.png",
        ⟨"upload", "photo.png", { read := true, write := true }, 0, some 7200000,
          ⟨0, some 7200000⟩⟩⟩, true⟩ ∧
    permsWithin { read := true, write := true } writeOnlyPerms = false ∧
    ({ read := true, write := true } : BlobSASPermissions).write = true ∧
    ({ read := true, write := true } : BlobSASPermissions).read = true ∧
    (7200000 : Int) = 120 * 60 * 1000 ∧ (60 : Int) * 60 * 1000 < 7200000 := by
  decide

/-- C1 as amended: the SAS route only *defaults* to the write-only permission
and the 10-minute duration — when the caller supplies no `permission` and no
`timerange`, every issued URL is write-only and expires 10 minutes after its
start — but caller-supplied `permission` and `timerange` are honoured as-is,
with no narrowing to the route's policy and no clamping to a maximum. -/
theorem getSasToken_defaults_and_passthrough :
    (∀ dOk env now q u, q.permission = none → q.timerange = none →
      (getSasToken dOk env now q).response = .ok u →
      u.token.permissions = writeOnlyPerms ∧
      u.token.expiresOn = some (now + 10 * 60 * 1000)) ∧
    (∀ dOk env now q u, (getSasToken dOk env now q).response = .ok u →
      BlobSASPermissions.parse (q.permission.getD "w") = .ok u.token.permissions ∧
      u.token.startsOn = now ∧
      u.token.expiresOn =
        (parseIntJS (q.timerange.getD "10")).map (fun n => now + n * 60 * 1000)) := by
  constructor
  · intro dOk env now q u hp ht hok
    obtain ⟨h1, -, h3, -, -⟩ := getSasToken_ok_inv hok
    rw [hp] at h1
    rw [ht] at h3
    have hw : BlobSASPermissions.parse (Option.getD (none : Option String) "w") =
        .ok writeOnlyPerms := rfl
    rw [hw] at h1
    have h10 : parseIntJS (Option.getD (none : Option String) "10") = some 10 := by decide
    rw [h10] at h3
    exact ⟨(Except.ok.injEq _ _).mp h1 |>.symm, h3⟩
  · intro dOk env now q u hok
    obtain ⟨h1, h2, h3, -, -⟩ := getSasToken_ok_inv hok
    exact ⟨h1, h2, h3⟩

/-- Witness for the amended C1 at a concrete default request. -/
theorem getSasToken_defaults_witness :
    (⟨"https://acct.blob.core.windows.net/upload/a.txt",
      ⟨"upload", "a.txt", writeOnlyPerms, 0, some 600000,
        ⟨0, some 600000⟩⟩⟩ : SasUrl).token.permissions = writeOnlyPerms ∧
    (⟨"https://acct.blob.core.windows.net/upload/a.txt",
      ⟨"upload", "a.txt", writeOnlyPerms, 0, some 600000,
        ⟨0, some 600000⟩⟩⟩ : SasUrl).token.expiresOn =
      some (0 + 10 * 60 * 1000) :=
  getSasToken_defaults_and_passthrough.1 true (some "acct") 0
    { file := some "a.txt" }
    ⟨"https://acct.blob.core.windows.net/upload/a.txt",
      ⟨"upload", "a.txt", writeOnlyPerms, 0, some 600000, ⟨0, some 600000⟩⟩⟩
    rfl rfl (by decide)

/-- C4: whenever the request's `timerange` parses to a positive integer `n`
(the default `'10'` included), an `ok` reply's token carries both a start time
(`now`) and an expiry, the expiry equals `startsOn + n` minutes, and the
expiry is strictly after the start. -/
theorem getSasToken_expiry_after_start (dOk : Bool) (env : Option String)
    (now : Int) (q : SasQuery) (u : SasUrl) (n : Int)
    (hn : parseIntJS (q.timerange.getD "10") = some n) (hpos : 0 < n)
    (hok : (getSasToken dOk env now q).response = .ok u) :
    u.token.startsOn = now ∧
    u.token.expiresOn.isSome = true ∧
    u.token.expiresOn = some (now + n * 60 * 1000) ∧
    u.token.startsOn < now + n * 60 * 1000 := by
  obtain ⟨-, h2, h3, -, -⟩ := getSasToken_ok_inv hok
  rw [hn] at h3
  refine ⟨h2, by rw [h3]; rfl, h3, ?_⟩
  rw [h2]
  omega

/-- Witness for C4 at the default `timerange` (`n = 10`). -/
theorem getSasToken_expiry_witness :
    (⟨"https://acct.blob.core.windows.net/upload/a.txt",
      ⟨"upload", "a.txt", writeOnlyPerms, 0, some 600000,
        ⟨0, some 600000⟩⟩⟩ : SasUrl).token.startsOn = 0 ∧
    (⟨"https://acct.blob.core.windows.net/upload/a.txt",
      ⟨"upload", "a.txt", writeOnlyPerms, 0, some 600000,
        ⟨0, some 600000⟩⟩⟩ : SasUrl).token.expiresOn.isSome = true ∧
    (⟨"https://acct.blob.core.windows.net/upload/a.txt",
      ⟨"upload", "a.txt", writeOnlyPerms, 0, some 600000,
        ⟨0, some 600000⟩⟩⟩ : SasUrl).token.expiresOn = some (0 + 10 * 60 * 1000) ∧
    (⟨"https://acct.blob.core.windows.net/upload/a.txt",
      ⟨"upload", "a.txt", writeOnlyPerms, 0, some 600000,
        ⟨0, some 600000⟩⟩⟩ : SasUrl).token.startsOn < 0 + 10 * 60 * 1000 :=
  getSasToken_expiry_after_start true (some "acct") 0 { file := some "a.txt" }
    ⟨"https://acct.blob.core.windows.net/upload/a.txt",
      ⟨"upload", "a.txt", writeOnlyPerms, 0, some 600000, ⟨0, some 600000⟩⟩⟩
    10 (by decide) (by decide) (by decide)

/-- C9: the SAS route never rejects a request on account of its `timerange`
value.  A client-error reply only ever arises from a falsy `file`; whenever
`file` and the account configuration are present, the delegation-key store
call is attempted regardless of what `timerange` holds; and every issued URL's
expiry is `startsOn + parseInt(timerange, 10) * 60 * 1000` — equal to the
start for `timerange = "0"`, strictly before the start for a negative value,
and an invalid date (the `NaN` timestamp, `none`) for a non-numeric value. -/
theorem getSasToken_timerange_unvalidated :
    (∀ dOk env now q,
      (getSasToken dOk env now q).response.isClientError = true →
      q.file.getD "" = "") ∧
    (∀ dOk env now q, q.file.getD "" ≠ "" → env.getD "" ≠ "" →
      (getSasToken dOk env now q).delegationKeyRequested = true) ∧
    (∀ dOk env now q u, (getSasToken dOk env now q).response = .ok u →
      u.token.expiresOn =
        (parseIntJS (q.timerange.getD "10")).map (fun n => now + n * 60 * 1000)) ∧
    (∀ dOk env now q u, (getSasToken dOk env now q).response = .ok u →
      q.timerange = some "0" → u.token.expiresOn = some u.token.startsOn) ∧
    (∀ dOk env now q u m, (getSasToken dOk env now q).response = .ok u →
      parseIntJS (q.timerange.getD "10") = some m → m < 0 →
      u.token.expiresOn = some (now + m * 60 * 1000) ∧
        now + m * 60 * 1000 < u.token.startsOn) ∧
    (∀ dOk env now q u, (getSasToken dOk env now q).response = .ok u →
      parseIntJS (q.timerange.getD "10") = none → u.token.expiresOn = none) := by
  refine ⟨?_, ?_, ?_, ?_, ?_, ?_⟩
  · intro dOk env now q hce
    by_cases hf : q.file.getD "" = ""
    · exact hf
    · exfalso
      by_cases ha : env.getD "" = ""
      · simp [getSasToken, hf, ha, SasResponse.isClientError] at hce
      · cases dOk with
        | false => simp [getSasToken, hf, ha, SasResponse.isClientError] at hce
        | true =>
          cases hp : BlobSASPermissions.parse (q.permission.getD "w") with
          | error e =>
            simp [getSasToken, hf, ha, hp, SasResponse.isClientError] at hce
          | ok perms =>
            simp [getSasToken, hf, ha, hp, SasResponse.isClientError] at hce
  · intro dOk env now q hf ha
    cases dOk with
    | false => simp [getSasToken, hf, ha]
    | true =>
      cases hp : BlobSASPermissions.parse (q.permission.getD "w") with
      | error e => simp [getSasToken, hf, ha, hp]
      | ok perms => simp [getSasToken, hf, ha, hp]
  · intro dOk env now q u hok
    exact (getSasToken_ok_inv hok).2.2.1
  · intro dOk env now q u hok ht
    have h3 := (getSasToken_ok_inv hok).2.2.1
    have h2 := (getSasToken_ok_inv hok).2.1
    rw [ht] at h3
    have h0 : parseIntJS (Option.getD (some "0") "10") = some 0 := by decide
    rw [h0] at h3
    rw [h3, h2]
    norm_num
  · intro dOk env now q u m hok hm hneg
    have h3 := (getSasToken_ok_inv hok).2.2.1
    have h2 := (getSasToken_ok_inv hok).2.1
    rw [hm] at h3
    refine ⟨h3, ?_⟩
    rw [h2]
    omega
  · intro dOk env now q u hok hnan
    have h3 := (getSasToken_ok_inv hok).2.2.1
    rw [hnan] at h3
    exact h3

/-- Witness for C9: a concrete request with non-numeric `timerange=abc` still
reaches the delegation-key call, and its issued token has an invalid expiry. -/
theorem getSasToken_timerange_witness :
    (getSasToken true (some "acct") 0
      { file := some "a.txt", timerange := some "abc" }).delegationKeyRequested = true :=
  getSasToken_timerange_unvalidated.2.1 true (some "acct") 0
    { file := some "a.txt", timerange := some "abc" }
    (by decide) (by decide)

/-- C2: evaluation of the two list-route variants at the same concrete state
(account `acct`, default container, one blob `a.txt`).  The
`packages/api/src/routes/list.ts` variant answers with a bare unsigned blob
URL — no `?`, no SAS query parameters at all — although the sibling SAS
route's own comments document that the list route mints a separate read token
per blob; the `LIST_SAS_TOKEN_*` variant does mint, per entry, a fresh
read-only token with a 60-minute window (longer than the 10-minute upload
default). -/
theorem listFiles_variants_eval :
    listFilesBare true (some "acct") none ["a.txt"] =
      .ok ["https://acct.blob.core.windows.net/upload/a.txt"] ∧
    "https://acct.blob.core.windows.net/upload/a.txt".data.contains '?' = false ∧
    listFilesSas true (some "acct") none 0 ["a.txt"] =
      .ok [⟨"https://acct.blob.core.windows.net/upload/a.txt",
        ⟨"upload", "a.txt", readOnlyPerms, 0, some 3600000, ⟨0, some 3600000⟩⟩⟩] ∧
    readOnlyPerms.read = true ∧ readOnlyPerms.write = false ∧
    (3600000 : Int) = 60 * 60 * 1000 ∧ (10 : Int) * 60 * 1000 < 3600000 := by
  decide

/-- Every entry of a successful reply of the SAS-minting list variant is a
read-scoped, time-bound signed URL minted for its own blob: the reply is
exactly one token per enumerated blob name (so each entry's signature is over
that entry's blob name), and every entry carries exactly the read permission
and the window `[now, now + 60 min]`. -/
theorem listFilesSas_entries_read_scoped (storeOk : Bool) (env : Option String)
    (containerQ : Option String) (now : Int) (blobs : List String)
    (l : List SasUrl)
    (hok : listFilesSas storeOk env containerQ now blobs = .ok l) :
    l = blobs.map (fun name =>
      ⟨blobUrl (env.getD "") (containerQ.getD "upload") name,
        ⟨containerQ.getD "upload", name, readOnlyPerms, now,
          some (now + 60 * 60 * 1000), ⟨now, some (now + 60 * 60 * 1000)⟩⟩⟩) ∧
    l.length = blobs.length ∧
    ∀ u ∈ l,
      u.token.permissions = readOnlyPerms ∧
      u.token.permissions.write = false ∧
      u.token.startsOn = now ∧
      u.token.expiresOn = some (now + 60 * 60 * 1000) ∧
      u.base = blobUrl (env.getD "") (containerQ.getD "upload") u.token.blobName := by
  by_cases ha : env.getD "" = ""
  · simp [listFilesSas, ha] at hok
  · cases storeOk with
    | false => simp [listFilesSas, ha] at hok
    | true =>
      have hr : BlobSASPermissions.parse LIST_SAS_TOKEN_PERMISSION =
          .ok readOnlyPerms := rfl
      simp [listFilesSas, ha, hr, LIST_SAS_TOKEN_EXPIRATION_MINUTES] at hok
      subst hok
      refine ⟨by norm_num, by simp, ?_⟩
      intro u hu
      simp only [List.mem_map] at hu
      obtain ⟨name, -, rfl⟩ := hu
      exact ⟨rfl, rfl, rfl, rfl, rfl⟩

/-- C5: selecting a new file resets the client: the stored SAS token URL (and
the upload status) are cleared before anything else can run, the newly chosen
file becomes the selection, and from the reset state `handleFileUpload`
aborts without issuing any PUT under every environment — so a token obtained
for one selection is never used for an upload after a different selection. -/
theorem handleFileSelection_resets_token (st : AppState) (f : String)
    (rest : List String) (env : UploadEnv) :
    (handleFileSelection st (some (f :: rest))).sasTokenUrl = "" ∧
    (handleFileSelection st (some (f :: rest))).selectedFile = some f ∧
    (handleFileSelection st (some (f :: rest))).uploadStatus = "" ∧
    handleFileUpload env (handleFileSelection st (some (f :: rest))) =
      (handleFileSelection st (some (f :: rest)), ⟨false, none⟩) := by
  refine ⟨rfl, rfl, rfl, ?_⟩
  simp [handleFileSelection, handleFileUpload]

/-- C6: when the PUT of the file bytes fails, `handleFileUpload` reports the
failure through `uploadStatus` and leaves the stored SAS token URL, the
selected file (and the listing) untouched, so the same operation can be
retried with the same token. -/
theorem handleFileUpload_failure_frame (env : UploadEnv) (st : AppState)
    (n : Nat) (htok : st.sasTokenUrl ≠ "") (hb : env.fileBytes = some n)
    (hn : 1 ≤ n) (hfail : env.uploadOk = false) :
    (handleFileUpload env st).2 = ⟨true, some st.sasTokenUrl⟩ ∧
    (handleFileUpload env st).1.sasTokenUrl = st.sasTokenUrl ∧
    (handleFileUpload env st).1.selectedFile = st.selectedFile ∧
    (handleFileUpload env st).1.list = st.list ∧
    (handleFileUpload env st).1.uploadStatus =
      uploadFailText env.uploadErrDetail := by
  have hlt : ¬n < 1 := by omega
  simp [handleFileUpload, htok, hb, hlt, hfail]

/-- Witness for C6 at a concrete failing upload. -/
theorem handleFileUpload_failure_witness :
    (handleFileUpload
      { fileBytes := some 5, uploadOk := false, uploadErrDetail := "403" }
      { selectedFile := some "a.txt", sasTokenUrl := "https://u?sas" }).2 =
      ⟨true, some "https://u?sas"⟩ ∧
    (handleFileUpload
      { fileBytes := some 5, uploadOk := false, uploadErrDetail := "403" }
      { selectedFile := some "a.txt", sasTokenUrl := "https://u?sas" }).1.sasTokenUrl =
      "https://u?sas" ∧
    (handleFileUpload
      { fileBytes := some 5, uploadOk := false, uploadErrDetail := "403" }
      { selectedFile := some "a.txt", sasTokenUrl := "https://u?sas" }).1.selectedFile =
      some "a.txt" ∧
    (handleFileUpload
      { fileBytes := some 5, uploadOk := false, uploadErrDetail := "403" }
      { selectedFile := some "a.txt", sasTokenUrl := "https://u?sas" }).1.list = [] ∧
    (handleFileUpload
      { fileBytes := some 5, uploadOk := false, uploadErrDetail := "403" }
      { selectedFile := some "a.txt", sasTokenUrl := "https://u?sas" }).1.uploadStatus =
      uploadFailText "403" :=
  handleFileUpload_failure_frame
    { fileBytes := some 5, uploadOk := false, uploadErrDetail := "403" }
    { selectedFile := some "a.txt", sasTokenUrl := "https://u?sas" }
    5 (by decide) rfl (by decide) rfl

/-- Running `getCredential()` calls from a state whose cache is already
populated constructs nothing and keeps returning the cached handle. -/
theorem runCredCalls_cached (k : Nat) (c n : Nat) :
    runCredCalls k ⟨some c, n⟩ = (List.replicate k c, ⟨some c, n⟩) := by
  induction k with
  | zero => rfl
  | succ k ih => simp [runCredCalls, getCredential, ih, List.replicate]

/-- C7: `getCredential` is idempotent and memoized — over any positive number
of calls in a process started with an empty cache, the underlying credential
object is constructed exactly once (the construction counter ends at 1) and
every call, first and subsequent, returns that same handle. -/
theorem getCredential_memoized (k : Nat) (hk : 1 ≤ k) :
    runCredCalls k initialCredState = (List.replicate k 0, ⟨some 0, 1⟩) := by
  cases k with
  | zero => omega
  | succ k =>
    simp [runCredCalls, getCredential, initialCredState, runCredCalls_cached,
      List.replicate]

/-- Witness for C7 with three calls. -/
theorem getCredential_memoized_witness :
    runCredCalls 3 initialCredState = (List.replicate 3 0, ⟨some 0, 1⟩) :=
  getCredential_memoized 3 (by decide)

/-- C8: the storage-account access test of `verifyStoragePermissions` is a
bounded retry: for every sequence of call outcomes it makes between one and
three `getProperties` attempts, sleeps a fixed 2000 ms exactly once between
consecutive attempts (one sleep fewer than attempts), and returns the
`success: false` record — rather than looping or throwing — exactly when all
three attempts have failed.  (Termination is by construction: the loop is a
total function of the `retries` counter.) -/
theorem verifyStorageAccess_bounded_retry (outcome : Nat → Bool) :
    1 ≤ (verifyStorageAccess outcome).2.attempts ∧
    (verifyStorageAccess outcome).2.attempts ≤ 3 ∧
    (verifyStorageAccess outcome).2.sleepsMs =
      List.replicate ((verifyStorageAccess outcome).2.attempts - 1) 2000 ∧
    ((verifyStorageAccess outcome).1 =
        .failure "Cannot access storage account. RBAC roles may need time to propagate (5-10 minutes)." ↔
      outcome 0 = false ∧ outcome 1 = false ∧ outcome 2 = false) := by
  cases h0 : outcome 0 <;> cases h1 : outcome 1 <;> cases h2 : outcome 2 <;>
    simp [verifyStorageAccess, accessLoop, h0, h1, h2, List.replicate]

/-- C10: `getStatus` echoes the request headers minus every header whose
name contains `"authorization"` case-insensitively: such headers never appear
in the response; every other header appears unchanged; and the response is
invariant under changing the value of an authorization-named header, so that
value never flows into the status body. -/
theorem getStatus_excludes_authorization :
    (∀ ne sa fu ts m u hs kv, kv ∈ hs →
      containsSub "authorization".data (jsToLower kv.1).data = true →
      kv ∉ (getStatus ne sa fu ts m u hs).reqHeaders) ∧
    (∀ ne sa fu ts m u hs kv, kv ∈ hs →
      containsSub "authorization".data (jsToLower kv.1).data = false →
      kv ∈ (getStatus ne sa fu ts m u hs).reqHeaders) ∧
    (∀ ne sa fu ts m u pre post name v1 v2,
      containsSub "authorization".data (jsToLower name).data = true →
      getStatus ne sa fu ts m u (pre ++ (name, v1) :: post) =
        getStatus ne sa fu ts m u (pre ++ (name, v2) :: post)) := by
  refine ⟨?_, ?_, ?_⟩
  · intro ne sa fu ts m u hs kv hmem hc
    simp [getStatus, List.mem_filter, keepsHeader, hc]
  · intro ne sa fu ts m u hs kv hmem hc
    simp [getStatus, List.mem_filter, keepsHeader, hc, hmem]
  · intro ne sa fu ts m u pre post name v1 v2 hc
    have hkeep1 : keepsHeader (name, v1) = false := by simp [keepsHeader, hc]
    have hkeep2 : keepsHeader (name, v2) = false := by simp [keepsHeader, hc]
    simp [getStatus, List.filter_append, List.filter_cons, hkeep1, hkeep2]

/-- Witness for C10: a concrete `Authorization: secret` header is absent from
the echoed headers while `accept: json` survives. -/
theorem getStatus_excludes_authorization_witness :
    ("Authorization", "secret") ∉
      (getStatus none none none "t" "GET" "/api/status"
        [("Authorization", "secret"), ("accept", "json")]).reqHeaders ∧
    ("accept", "json") ∈
      (getStatus none none none "t" "GET" "/api/status"
        [("Authorization", "secret"), ("accept", "json")]).reqHeaders :=
  ⟨getStatus_excludes_authorization.1 none none none "t" "GET" "/api/status"
      [("Authorization", "secret"), ("accept", "json")] ("Authorization", "secret")
      (by decide) (by decide),
    getStatus_excludes_authorization.2.1 none none none "t" "GET" "/api/status"
      [("Authorization", "secret"), ("accept", "json")] ("accept", "json")
      (by decide) (by decide)⟩
